import Mathlib

/-!
Verification of `src/dashboard/apps/server/src/routes/python_redis.py`.

The script opens one connection to a Redis instance and issues a fixed
linear sequence of commands: PING; HSET (mapping) / ZADD / RPUSH creates;
HGETALL / ZREVRANGE (with scores) / LRANGE reads; HSET (single field) /
RPUSH updates; HGET; one batched DEL of the three keys.

We embed the Redis store shallowly as an association list from string
keys to typed values (hash, sorted set, list), with `decode_responses=True`
so every stored datum is a string (scores are the integer 10 here, modelled
as `Int`).  Each command is a function on the store that either returns a
result and a new store or fails (Redis WRONGTYPE when a key holds a value
of another type); the script itself is a list of operations executed in
order by `runOps`, which stops at the first error, as the Python script
does (no try/except anywhere in the module body).
-/

deriving instance DecidableEq for Except

/-- A Redis value, as used by the script: a hash (field/value string pairs,
in insertion order as Redis listpack encoding keeps them), a sorted set
(member/score pairs), or a list of strings. -/
inductive RVal where
  | hash : List (String × String) → RVal
  | zset : List (String × Int) → RVal
  | list : List String → RVal
deriving DecidableEq

/-- The key space of the Redis database: an association list from keys to
values.  The first binding of a key is its value; absent key = absent. -/
abbrev Store := List (String × RVal)

/-- Look a key up in the store (first binding wins). -/
def lookupStore : Store → String → Option RVal
  | [], _ => none
  | (k', v) :: rest, k => if k' = k then some v else lookupStore rest k

/-- Bind a key in the store: replace its first binding in place, or append
a new binding when the key is absent. -/
def setStore : Store → String → RVal → Store
  | [], k, v => [(k, v)]
  | (k', v') :: rest, k, v =>
      if k' = k then (k, v) :: rest else (k', v') :: setStore rest k v

/-- Remove every binding of one key (Redis DEL of a single key). -/
def delKey : Store → String → Store
  | [], _ => []
  | (k', v) :: rest, k =>
      if k' = k then delKey rest k else (k', v) :: delKey rest k

/-- Redis DEL with several keys: delete each in turn. -/
def delStore (s : Store) (ks : List String) : Store :=
  ks.foldl delKey s

/-- Redis EXISTS on one key. -/
def existsKey (s : Store) (k : String) : Bool :=
  (lookupStore s k).isSome

/-- Look a field up in a hash. -/
def lookupField : List (String × String) → String → Option String
  | [], _ => none
  | (f', v) :: rest, f => if f' = f then some v else lookupField rest f

/-- HSET semantics on one field of a hash: overwrite the value in place if
the field exists, otherwise append the field. -/
def upsertField : List (String × String) → String → String → List (String × String)
  | [], f, v => [(f, v)]
  | (f', v') :: rest, f, v =>
      if f' = f then (f, v) :: rest else (f', v') :: upsertField rest f v

/-- Apply an HSET mapping field by field, left to right. -/
def applyFields (fs : List (String × String)) (m : List (String × String)) :
    List (String × String) :=
  m.foldl (fun acc p => upsertField acc p.1 p.2) fs

/-- ZADD semantics on one member: overwrite its score in place if present,
otherwise append the member. -/
def upsertMember : List (String × Int) → String → Int → List (String × Int)
  | [], m, sc => [(m, sc)]
  | (m', sc') :: rest, m, sc =>
      if m' = m then (m, sc) :: rest else (m', sc') :: upsertMember rest m sc

/-- Insert one member/score pair into a list sorted for ZREVRANGE order:
score descending, ties broken by member lexicographically descending. -/
def zrevInsert (p : String × Int) : List (String × Int) → List (String × Int)
  | [] => [p]
  | q :: rest =>
      if q.2 < p.2 ∨ (p.2 = q.2 ∧ q.1 < p.1) then p :: q :: rest
      else q :: zrevInsert p rest

/-- Sort member/score pairs in ZREVRANGE order (score descending). -/
def zrevSort (ms : List (String × Int)) : List (String × Int) :=
  ms.foldr zrevInsert []

/-- `r.hset(key, mapping=m)` (and `r.hset(key, f, v)` with a one-pair
mapping): create the hash or update it field by field; WRONGTYPE when the
key holds a non-hash value.  The script discards the numeric reply. -/
def hset (s : Store) (k : String) (m : List (String × String)) :
    Except String Store :=
  match lookupStore s k with
  | none => .ok (setStore s k (.hash (applyFields [] m)))
  | some (.hash fs) => .ok (setStore s k (.hash (applyFields fs m)))
  | some _ => .error "WRONGTYPE"

/-- `r.hgetall(key)`: the full field/value mapping; empty for an absent
key; WRONGTYPE for a non-hash value. -/
def hgetall (s : Store) (k : String) :
    Except String (List (String × String)) :=
  match lookupStore s k with
  | none => .ok []
  | some (.hash fs) => .ok fs
  | some _ => .error "WRONGTYPE"

/-- `r.hget(key, field)`: one field of a hash, `none` when the key or the
field is absent; WRONGTYPE for a non-hash value. -/
def hget (s : Store) (k f : String) : Except String (Option String) :=
  match lookupStore s k with
  | none => .ok none
  | some (.hash fs) => .ok (lookupField fs f)
  | some _ => .error "WRONGTYPE"

/-- `r.zadd(key, {member: score})` with a one-member dict: create the
sorted set or upsert the member; WRONGTYPE for a non-zset value. -/
def zadd (s : Store) (k : String) (m : String) (sc : Int) :
    Except String Store :=
  match lookupStore s k with
  | none => .ok (setStore s k (.zset [(m, sc)]))
  | some (.zset ms) => .ok (setStore s k (.zset (upsertMember ms m sc)))
  | some _ => .error "WRONGTYPE"

/-- `r.zrevrange(key, 0, -1, withscores=True)`: all member/score pairs in
descending-score order; empty for an absent key. -/
def zrevrangeAll (s : Store) (k : String) :
    Except String (List (String × Int)) :=
  match lookupStore s k with
  | none => .ok []
  | some (.zset ms) => .ok (zrevSort ms)
  | some _ => .error "WRONGTYPE"

/-- `r.rpush(key, entry)`: append one entry at the right end of the list,
creating it when absent; WRONGTYPE for a non-list value.  The script
discards the numeric reply. -/
def rpush (s : Store) (k : String) (x : String) : Except String Store :=
  match lookupStore s k with
  | none => .ok (setStore s k (.list [x]))
  | some (.list xs) => .ok (setStore s k (.list (xs ++ [x])))
  | some _ => .error "WRONGTYPE"

/-- `r.lrange(key, 0, -1)`: the whole list in insertion order; empty for
an absent key; WRONGTYPE for a non-list value. -/
def lrange (s : Store) (k : String) : Except String (List String) :=
  match lookupStore s k with
  | none => .ok []
  | some (.list xs) => .ok xs
  | some _ => .error "WRONGTYPE"

/-- The result of one command, as the script observes it (replies to the
write commands are discarded by the script, modelled as `done`). -/
inductive RRes where
  | done : RRes
  | bool : Bool → RRes
  | str : Option String → RRes
  | fields : List (String × String) → RRes
  | pairs : List (String × Int) → RRes
  | items : List String → RRes
deriving DecidableEq

/-- One Redis command issued by the script. -/
inductive Op where
  | ping : Op
  | hsetMapping : String → List (String × String) → Op
  | hsetField : String → String → String → Op
  | zaddOne : String → String → Int → Op
  | rpushOne : String → String → Op
  | hgetallOp : String → Op
  | zrevrangeOp : String → Op
  | lrangeOp : String → Op
  | hgetOp : String → String → Op
  | delOp : List String → Op
deriving DecidableEq

/-- Execute one command on the store. -/
def applyOp (s : Store) : Op → Except String (RRes × Store)
  | .ping => .ok (.bool true, s)
  | .hsetMapping k m => (hset s k m).map (fun s' => (.done, s'))
  | .hsetField k f v => (hset s k [(f, v)]).map (fun s' => (.done, s'))
  | .zaddOne k m sc => (zadd s k m sc).map (fun s' => (.done, s'))
  | .rpushOne k x => (rpush s k x).map (fun s' => (.done, s'))
  | .hgetallOp k => (hgetall s k).map (fun fs => (.fields fs, s))
  | .zrevrangeOp k => (zrevrangeAll s k).map (fun ps => (.pairs ps, s))
  | .lrangeOp k => (lrange s k).map (fun xs => (.items xs, s))
  | .hgetOp k f => (hget s k f).map (fun v => (.str v, s))
  | .delOp ks => .ok (.done, delStore s ks)

/-- Run a list of commands in order, stopping at the first error: the
results of the commands executed, the store as mutated so far, and the
error if one occurred.  This is the Python module body: straight-line
statements with no try/except, so an exception halts the remainder and
already-applied writes stay in the store. -/
def runOps (s : Store) : List Op → List RRes × Store × Option String
  | [] => ([], s, none)
  | op :: rest =>
      match applyOp s op with
      | .error e => ([], s, some e)
      | .ok (res, s') =>
          match runOps s' rest with
          | (rs, s1, e) => (res :: rs, s1, e)

/-- The script's commands before the final DEL, in source order
(lines 11-27 of python_redis.py). -/
def scriptPre : List Op :=
  [ .ping,
    .hsetMapping "help:user:demo"
      [("name", "Ali Demo"), ("email", "demo@example.com")],
    .zaddOne "help:queue:priority" "ticket:demo" 10,
    .rpushOne "help:ticket:demo:log" "Ticket created by Ali Demo",
    .hgetallOp "help:user:demo",
    .zrevrangeOp "help:queue:priority",
    .lrangeOp "help:ticket:demo:log",
    .hsetField "help:user:demo" "name" "Ali Updated",
    .rpushOne "help:ticket:demo:log" "Name updated to Ali Updated",
    .hgetOp "help:user:demo" "name" ]

/-- The full command sequence of the script: everything before the DEL,
then the one batched DEL of the three keys (line 30). -/
def script : List Op :=
  scriptPre ++
    [.delOp ["help:user:demo", "help:queue:priority", "help:ticket:demo:log"]]

/-! ### Store lemmas -/

theorem lookup_set_self (s : Store) (k : String) (v : RVal) :
    lookupStore (setStore s k v) k = some v := by
  induction s with
  | nil => simp [setStore, lookupStore]
  | cons p rest ih =>
      obtain ⟨k', v'⟩ := p
      by_cases h : k' = k <;> simp [setStore, lookupStore, h, ih]

theorem lookup_set_ne (s : Store) (v : RVal) {k k' : String} (h : k ≠ k') :
    lookupStore (setStore s k v) k' = lookupStore s k' := by
  induction s with
  | nil => simp [setStore, lookupStore, h]
  | cons p rest ih =>
      obtain ⟨k'', v'⟩ := p
      by_cases h2 : k'' = k
      · subst h2; simp [setStore, lookupStore, h]
      · simp [setStore, lookupStore, h2, ih]

theorem set_set_self (s : Store) (k : String) (v w : RVal) :
    setStore (setStore s k v) k w = setStore s k w := by
  induction s with
  | nil => simp [setStore]
  | cons p rest ih =>
      obtain ⟨k', v'⟩ := p
      by_cases h : k' = k <;> simp [setStore, h, ih]

theorem delKey_set_self (s : Store) (k : String) (v : RVal) :
    delKey (setStore s k v) k = delKey s k := by
  induction s with
  | nil => simp [setStore, delKey]
  | cons p rest ih =>
      obtain ⟨k', v'⟩ := p
      by_cases h : k' = k <;> simp [setStore, delKey, h, ih]

theorem delKey_set_ne (s : Store) (v : RVal) {k k' : String} (h : k ≠ k') :
    delKey (setStore s k v) k' = setStore (delKey s k') k v := by
  induction s with
  | nil => simp [setStore, delKey, h]
  | cons p rest ih =>
      obtain ⟨k'', v'⟩ := p
      by_cases h2 : k'' = k
      · subst h2
        simp [setStore, delKey, h]
      · by_cases h3 : k'' = k'
        · subst h3
          simp [setStore, delKey, h.symm, ih]
        · simp [setStore, delKey, h2, h3, ih]

theorem delKey_absent (s : Store) (k : String) (h : lookupStore s k = none) :
    delKey s k = s := by
  induction s with
  | nil => simp [delKey]
  | cons p rest ih =>
      obtain ⟨k', v⟩ := p
      by_cases h2 : k' = k
      · simp [lookupStore, h2] at h
      · simp [lookupStore, h2] at h
        simp [delKey, h2, ih h]

theorem lookup_delKey_self (s : Store) (k : String) :
    lookupStore (delKey s k) k = none := by
  induction s with
  | nil => simp [delKey, lookupStore]
  | cons p rest ih =>
      obtain ⟨k', v⟩ := p
      by_cases h : k' = k <;> simp [delKey, lookupStore, h, ih]

theorem lookup_delKey_ne (s : Store) {k k' : String} (h : k ≠ k') :
    lookupStore (delKey s k) k' = lookupStore s k' := by
  induction s with
  | nil => simp [delKey, lookupStore]
  | cons p rest ih =>
      obtain ⟨k'', v⟩ := p
      by_cases h2 : k'' = k
      · subst h2; simp [delKey, lookupStore, h, ih]
      · simp [delKey, lookupStore, h2, ih]

theorem lookupField_upsert_self (fs : List (String × String)) (f v : String) :
    lookupField (upsertField fs f v) f = some v := by
  induction fs with
  | nil => simp [upsertField, lookupField]
  | cons p rest ih =>
      obtain ⟨f', v'⟩ := p
      by_cases h : f' = f <;> simp [upsertField, lookupField, h, ih]

theorem lookupField_upsert_ne (fs : List (String × String)) (v : String)
    {f f' : String} (h : f ≠ f') :
    lookupField (upsertField fs f v) f' = lookupField fs f' := by
  induction fs with
  | nil => simp [upsertField, lookupField, h]
  | cons p rest ih =>
      obtain ⟨f'', v'⟩ := p
      by_cases h2 : f'' = f
      · subst h2; simp [upsertField, lookupField, h]
      · simp [upsertField, lookupField, h2, ih]

/-! ### Runner lemmas -/

theorem runOps_append_ok (s s1 : Store) (l1 l2 : List Op) (rs : List RRes)
    (h : runOps s l1 = (rs, s1, none)) :
    runOps s (l1 ++ l2) =
      (rs ++ (runOps s1 l2).1, (runOps s1 l2).2.1, (runOps s1 l2).2.2) := by
  induction l1 generalizing s rs with
  | nil =>
      simp [runOps] at h
      obtain ⟨h1, h2⟩ := h
      subst h1; subst h2
      simp
  | cons op rest ih =>
      rw [List.cons_append]
      cases happ : applyOp s op with
      | error e => simp [runOps, happ] at h
      | ok p =>
          obtain ⟨res, s'⟩ := p
          cases hrest : runOps s' rest with
          | mk rs' t =>
              obtain ⟨s1', e'⟩ := t
              simp [runOps, happ, hrest] at h
              obtain ⟨h1, h2, h3⟩ := h
              subst h1; subst h2
              cases e' with
              | some e => simp at h3
              | none =>
                  have := ih s' rs' hrest
                  simp [runOps, happ, this]

theorem runOps_append_err (s s1 : Store) (l1 l2 : List Op) (rs : List RRes)
    (e : String) (h : runOps s l1 = (rs, s1, some e)) :
    runOps s (l1 ++ l2) = (rs, s1, some e) := by
  induction l1 generalizing s rs with
  | nil => simp [runOps] at h
  | cons op rest ih =>
      rw [List.cons_append]
      cases happ : applyOp s op with
      | error e' =>
          simp [runOps, happ] at h ⊢
          exact h
      | ok p =>
          obtain ⟨res, s'⟩ := p
          cases hrest : runOps s' rest with
          | mk rs' t =>
              obtain ⟨s1', e'⟩ := t
              simp [runOps, happ, hrest] at h
              obtain ⟨h1, h2, h3⟩ := h
              subst h1; subst h2
              cases e' with
              | none => simp at h3
              | some e'' =>
                  cases h3
                  have := ih s' rs' hrest
                  simp [runOps, happ, this]

/-! ### The demo run, evaluated symbolically

`runPre_spec` and `runScript_spec` evaluate the script on any store in
which the three demo keys start absent: every command succeeds, the trace
of replies is fixed, and the final DEL returns the store to its initial
value. -/

theorem runPre_spec (s : Store)
    (hu : lookupStore s "help:user:demo" = none)
    (hq : lookupStore s "help:queue:priority" = none)
    (hl : lookupStore s "help:ticket:demo:log" = none) :
    runOps s scriptPre =
      ([.bool true, .done, .done, .done,
        .fields [("name", "Ali Demo"), ("email", "demo@example.com")],
        .pairs [("ticket:demo", 10)],
        .items ["Ticket created by Ali Demo"],
        .done, .done, .str (some "Ali Updated")],
       setStore (setStore (setStore (setStore (setStore s
         "help:user:demo"
           (.hash [("name", "Ali Demo"), ("email", "demo@example.com")]))
         "help:queue:priority" (.zset [("ticket:demo", 10)]))
         "help:ticket:demo:log" (.list ["Ticket created by Ali Demo"]))
         "help:user:demo"
           (.hash [("name", "Ali Updated"), ("email", "demo@example.com")]))
         "help:ticket:demo:log"
           (.list ["Ticket created by Ali Demo", "Name updated to Ali Updated"]),
       none) := by
  simp [scriptPre, runOps, applyOp, hset, zadd, rpush, hgetall, hget, lrange,
        zrevrangeAll, applyFields, upsertField, lookupField, zrevSort, zrevInsert,
        lookup_set_self, lookup_set_ne, hu, hq, hl, Except.map]

theorem runScript_spec (s : Store)
    (hu : lookupStore s "help:user:demo" = none)
    (hq : lookupStore s "help:queue:priority" = none)
    (hl : lookupStore s "help:ticket:demo:log" = none) :
    runOps s script =
      ([.bool true, .done, .done, .done,
        .fields [("name", "Ali Demo"), ("email", "demo@example.com")],
        .pairs [("ticket:demo", 10)],
        .items ["Ticket created by Ali Demo"],
        .done, .done, .str (some "Ali Updated"), .done],
       s, none) := by
  have h1 := runPre_spec s hu hq hl
  rw [script, runOps_append_ok _ _ _ _ _ h1]
  simp [runOps, applyOp, delStore,
        delKey_set_self, delKey_set_ne, set_set_self,
        delKey_absent _ _ hu, delKey_absent _ _ hq, delKey_absent _ _ hl]

/-! ### Claims -/

/-- C1: starting with `help:user:demo` absent, after the step-3 HSET with
mapping `{name: "Ali Demo", email: "demo@example.com"}`, HGETALL on that
key returns exactly those two fields and no others. -/
theorem C1_hgetall_after_create (s s' : Store)
    (h : lookupStore s "help:user:demo" = none)
    (h2 : hset s "help:user:demo"
        [("name", "Ali Demo"), ("email", "demo@example.com")] = .ok s') :
    hgetall s' "help:user:demo" =
      .ok [("name", "Ali Demo"), ("email", "demo@example.com")] := by
  simp only [hset, h, Except.ok.injEq] at h2
  subst h2
  simp [hgetall, lookup_set_self, applyFields, upsertField]

theorem C1_witness :
    lookupStore ([] : Store) "help:user:demo" = none ∧
    hset ([] : Store) "help:user:demo"
        [("name", "Ali Demo"), ("email", "demo@example.com")] =
      .ok [("help:user:demo",
        RVal.hash [("name", "Ali Demo"), ("email", "demo@example.com")])] ∧
    hgetall [("help:user:demo",
        RVal.hash [("name", "Ali Demo"), ("email", "demo@example.com")])]
        "help:user:demo" =
      .ok [("name", "Ali Demo"), ("email", "demo@example.com")] :=
  ⟨by decide, by decide,
   C1_hgetall_after_create []
     [("help:user:demo",
       RVal.hash [("name", "Ali Demo"), ("email", "demo@example.com")])]
     (by decide) (by decide)⟩

/-- C2: after the step-7 single-field HSET of `name` to `"Ali Updated"`,
HGET of `name` returns `"Ali Updated"` and every other field of the hash
(in particular `email`) reads the same as before the update. -/
theorem C2_update_name_frame (s s' : Store) (fs : List (String × String))
    (h : lookupStore s "help:user:demo" = some (.hash fs))
    (h2 : hset s "help:user:demo" [("name", "Ali Updated")] = .ok s') :
    hget s' "help:user:demo" "name" = .ok (some "Ali Updated") ∧
    ∀ f, f ≠ "name" →
      hget s' "help:user:demo" f = hget s "help:user:demo" f := by
  simp only [hset, h, Except.ok.injEq] at h2
  subst h2
  constructor
  · simp [hget, lookup_set_self, applyFields, lookupField_upsert_self]
  · intro f hf
    simp only [hget, lookup_set_self, h, applyFields,
               List.foldl_cons, List.foldl_nil]
    rw [lookupField_upsert_ne _ _ hf.symm]

theorem C2_witness :
    lookupStore
        [("help:user:demo",
          RVal.hash [("name", "Ali Demo"), ("email", "demo@example.com")])]
        "help:user:demo" =
      some (.hash [("name", "Ali Demo"), ("email", "demo@example.com")]) ∧
    hset [("help:user:demo",
          RVal.hash [("name", "Ali Demo"), ("email", "demo@example.com")])]
        "help:user:demo" [("name", "Ali Updated")] =
      .ok [("help:user:demo",
        RVal.hash [("name", "Ali Updated"), ("email", "demo@example.com")])] ∧
    hget [("help:user:demo",
        RVal.hash [("name", "Ali Updated"), ("email", "demo@example.com")])]
        "help:user:demo" "name" = .ok (some "Ali Updated") ∧
    hget [("help:user:demo",
        RVal.hash [("name", "Ali Updated"), ("email", "demo@example.com")])]
        "help:user:demo" "email" = .ok (some "demo@example.com") :=
  ⟨by decide, by decide,
   (C2_update_name_frame
     [("help:user:demo",
       RVal.hash [("name", "Ali Demo"), ("email", "demo@example.com")])]
     [("help:user:demo",
       RVal.hash [("name", "Ali Updated"), ("email", "demo@example.com")])]
     [("name", "Ali Demo"), ("email", "demo@example.com")]
     (by decide) (by decide)).1,
   ((C2_update_name_frame
     [("help:user:demo",
       RVal.hash [("name", "Ali Demo"), ("email", "demo@example.com")])]
     [("help:user:demo",
       RVal.hash [("name", "Ali Updated"), ("email", "demo@example.com")])]
     [("name", "Ali Demo"), ("email", "demo@example.com")]
     (by decide) (by decide)).2 "email"
      (by decide)).trans (by decide)⟩

/-- C3: starting with `help:ticket:demo:log` absent, after the step-5
first RPUSH and the step-7 second RPUSH (with the key untouched in
between), LRANGE of the whole list in insertion order is exactly
`["Ticket created by Ali Demo", "Name updated to Ali Updated"]`. -/
theorem C3_log_two_entries (s s1 s2 s3 : Store)
    (h : lookupStore s "help:ticket:demo:log" = none)
    (h1 : rpush s "help:ticket:demo:log" "Ticket created by Ali Demo" = .ok s1)
    (hmid : lookupStore s2 "help:ticket:demo:log" =
      lookupStore s1 "help:ticket:demo:log")
    (h2 : rpush s2 "help:ticket:demo:log" "Name updated to Ali Updated" =
      .ok s3) :
    lrange s3 "help:ticket:demo:log" =
      .ok ["Ticket created by Ali Demo", "Name updated to Ali Updated"] := by
  simp only [rpush, h, Except.ok.injEq] at h1
  subst h1
  rw [lookup_set_self] at hmid
  simp only [rpush, hmid, Except.ok.injEq] at h2
  subst h2
  simp [lrange, lookup_set_self]

theorem C3_witness :
    lookupStore ([] : Store) "help:ticket:demo:log" = none ∧
    rpush ([] : Store) "help:ticket:demo:log" "Ticket created by Ali Demo" =
      .ok [("help:ticket:demo:log", RVal.list ["Ticket created by Ali Demo"])] ∧
    rpush [("help:ticket:demo:log", RVal.list ["Ticket created by Ali Demo"])]
        "help:ticket:demo:log" "Name updated to Ali Updated" =
      .ok [("help:ticket:demo:log",
        RVal.list ["Ticket created by Ali Demo", "Name updated to Ali Updated"])] ∧
    lrange [("help:ticket:demo:log",
        RVal.list ["Ticket created by Ali Demo", "Name updated to Ali Updated"])]
        "help:ticket:demo:log" =
      .ok ["Ticket created by Ali Demo", "Name updated to Ali Updated"] :=
  ⟨by decide, by decide, by decide,
   C3_log_two_entries []
     [("help:ticket:demo:log", RVal.list ["Ticket created by Ali Demo"])]
     [("help:ticket:demo:log", RVal.list ["Ticket created by Ali Demo"])]
     [("help:ticket:demo:log",
       RVal.list ["Ticket created by Ali Demo", "Name updated to Ali Updated"])]
     (by decide) (by decide) (by decide) (by decide)⟩

/-- C4: starting with `help:queue:priority` absent, after the step-4 ZADD
of `{"ticket:demo": 10}`, ZREVRANGE over the whole set with scores yields
exactly the one pair `("ticket:demo", 10)`. -/
theorem C4_queue_single_entry (s s' : Store)
    (h : lookupStore s "help:queue:priority" = none)
    (h2 : zadd s "help:queue:priority" "ticket:demo" 10 = .ok s') :
    zrevrangeAll s' "help:queue:priority" = .ok [("ticket:demo", 10)] := by
  simp only [zadd, h, Except.ok.injEq] at h2
  subst h2
  simp [zrevrangeAll, lookup_set_self, zrevSort, zrevInsert]

theorem C4_witness :
    lookupStore ([] : Store) "help:queue:priority" = none ∧
    zadd ([] : Store) "help:queue:priority" "ticket:demo" 10 =
      .ok [("help:queue:priority", RVal.zset [("ticket:demo", 10)])] ∧
    zrevrangeAll [("help:queue:priority", RVal.zset [("ticket:demo", 10)])]
        "help:queue:priority" = .ok [("ticket:demo", 10)] :=
  ⟨by decide, by decide,
   C4_queue_single_entry []
     [("help:queue:priority", RVal.zset [("ticket:demo", 10)])]
     (by decide) (by decide)⟩

/-- C5: after the step-8 batched DEL of the three keys, none of
`help:user:demo`, `help:queue:priority`, `help:ticket:demo:log` exists,
whatever store the DEL was applied to. -/
theorem C5_delete_removes_all (s : Store) :
    existsKey (delStore s
        ["help:user:demo", "help:queue:priority", "help:ticket:demo:log"])
      "help:user:demo" = false ∧
    existsKey (delStore s
        ["help:user:demo", "help:queue:priority", "help:ticket:demo:log"])
      "help:queue:priority" = false ∧
    existsKey (delStore s
        ["help:user:demo", "help:queue:priority", "help:ticket:demo:log"])
      "help:ticket:demo:log" = false := by
  refine ⟨?_, ?_, ?_⟩ <;>
    simp [existsKey, delStore, lookup_delKey_self, lookup_delKey_ne]

/-- C6: starting with the three demo keys absent, running the full
sequence a second time from the first run's final state reproduces the
run exactly: the pre-delete evaluation of the second run equals that of
the first, and the pre-delete store holds exactly the two hash fields,
the one member/score pair, and the two log entries. -/
theorem C6_second_run_same_pre_delete (s : Store)
    (hu : lookupStore s "help:user:demo" = none)
    (hq : lookupStore s "help:queue:priority" = none)
    (hl : lookupStore s "help:ticket:demo:log" = none) :
    runOps ((runOps s script).2.1) scriptPre = runOps s scriptPre ∧
    lookupStore (runOps ((runOps s script).2.1) scriptPre).2.1
        "help:user:demo" =
      some (.hash [("name", "Ali Updated"), ("email", "demo@example.com")]) ∧
    lookupStore (runOps ((runOps s script).2.1) scriptPre).2.1
        "help:queue:priority" =
      some (.zset [("ticket:demo", 10)]) ∧
    lookupStore (runOps ((runOps s script).2.1) scriptPre).2.1
        "help:ticket:demo:log" =
      some (.list ["Ticket created by Ali Demo", "Name updated to Ali Updated"]) := by
  have hrun := runScript_spec s hu hq hl
  have hpre := runPre_spec s hu hq hl
  rw [hrun]
  refine ⟨rfl, ?_, ?_, ?_⟩ <;>
    · show lookupStore (runOps s scriptPre).2.1 _ = _
      rw [hpre]
      simp [lookup_set_self, lookup_set_ne]

theorem C6_witness :
    lookupStore ([] : Store) "help:user:demo" = none ∧
    lookupStore ([] : Store) "help:queue:priority" = none ∧
    lookupStore ([] : Store) "help:ticket:demo:log" = none ∧
    (runOps ((runOps ([] : Store) script).2.1) scriptPre =
        runOps ([] : Store) scriptPre ∧
     lookupStore (runOps ((runOps ([] : Store) script).2.1) scriptPre).2.1
         "help:user:demo" =
       some (.hash [("name", "Ali Updated"), ("email", "demo@example.com")]) ∧
     lookupStore (runOps ((runOps ([] : Store) script).2.1) scriptPre).2.1
         "help:queue:priority" =
       some (.zset [("ticket:demo", 10)]) ∧
     lookupStore (runOps ((runOps ([] : Store) script).2.1) scriptPre).2.1
         "help:ticket:demo:log" =
       some (.list ["Ticket created by Ali Demo", "Name updated to Ali Updated"])) :=
  ⟨rfl, rfl, rfl, C6_second_run_same_pre_delete [] rfl rfl rfl⟩

/-- C7 counterexample: the claim quantifies over every initial store, but
when `help:user:demo` already exists as a hash the run completes (no
error) and ends with that key deleted, so the final store differs from
the initial one. -/
theorem C7_counterexample :
    (runOps [("help:user:demo", RVal.hash [("name", "Bob")])] script).2.2 =
      none ∧
    (runOps [("help:user:demo", RVal.hash [("name", "Bob")])] script).2.1 ≠
      [("help:user:demo", RVal.hash [("name", "Bob")])] := by
  decide

/-- C7 (amended): for every initial store in which the three demo keys
are absent, the run completes and leaves the store exactly as it was;
the three keys all exist immediately before the final DEL (they are
transient), and at that point every other key is untouched. -/
theorem C7_amended_run_restores_store (s : Store)
    (hu : lookupStore s "help:user:demo" = none)
    (hq : lookupStore s "help:queue:priority" = none)
    (hl : lookupStore s "help:ticket:demo:log" = none) :
    (runOps s script).2.1 = s ∧
    (runOps s script).2.2 = none ∧
    existsKey (runOps s scriptPre).2.1 "help:user:demo" = true ∧
    existsKey (runOps s scriptPre).2.1 "help:queue:priority" = true ∧
    existsKey (runOps s scriptPre).2.1 "help:ticket:demo:log" = true ∧
    ∀ k, k ≠ "help:user:demo" → k ≠ "help:queue:priority" →
      k ≠ "help:ticket:demo:log" →
      lookupStore (runOps s scriptPre).2.1 k = lookupStore s k := by
  have hrun := runScript_spec s hu hq hl
  have hpre := runPre_spec s hu hq hl
  rw [hrun, hpre]
  refine ⟨rfl, rfl, ?_, ?_, ?_, ?_⟩
  · simp [existsKey, lookup_set_self, lookup_set_ne]
  · simp [existsKey, lookup_set_self, lookup_set_ne]
  · simp [existsKey, lookup_set_self, lookup_set_ne]
  · intro k h1 h2 h3
    rw [lookup_set_ne _ _ h3.symm, lookup_set_ne _ _ h1.symm,
        lookup_set_ne _ _ h3.symm, lookup_set_ne _ _ h2.symm,
        lookup_set_ne _ _ h1.symm]

theorem C7_amended_witness :
    lookupStore [("other", RVal.list ["keep"])] "help:user:demo" = none ∧
    lookupStore [("other", RVal.list ["keep"])] "help:queue:priority" = none ∧
    lookupStore [("other", RVal.list ["keep"])] "help:ticket:demo:log" = none ∧
    (runOps [("other", RVal.list ["keep"])] script).2.1 =
      [("other", RVal.list ["keep"])] ∧
    (runOps [("other", RVal.list ["keep"])] script).2.2 = none ∧
    existsKey (runOps [("other", RVal.list ["keep"])] scriptPre).2.1
      "help:user:demo" = true ∧
    lookupStore (runOps [("other", RVal.list ["keep"])] scriptPre).2.1
      "other" = lookupStore [("other", RVal.list ["keep"])] "other" :=
  ⟨by decide, by decide, by decide,
   (C7_amended_run_restores_store [("other", RVal.list ["keep"])]
     (by decide) (by decide) (by decide)).1,
   (C7_amended_run_restores_store [("other", RVal.list ["keep"])]
     (by decide) (by decide) (by decide)).2.1,
   (C7_amended_run_restores_store [("other", RVal.list ["keep"])]
     (by decide) (by decide) (by decide)).2.2.1,
   (C7_amended_run_restores_store [("other", RVal.list ["keep"])]
     (by decide) (by decide) (by decide)).2.2.2.2.2
     "other" (by decide) (by decide) (by decide)⟩

/-- C8: if any command of the script's sequence fails, the run returns
exactly the replies and store state accumulated before the failing
command (already-applied writes stay, no rollback), surfaces that
command's error, and executes nothing after it. -/
theorem C8_first_error_halts_run (s s1 : Store) (ops1 ops2 : List Op)
    (op : Op) (rs : List RRes) (e : String)
    (hsplit : script = ops1 ++ op :: ops2)
    (h1 : runOps s ops1 = (rs, s1, none))
    (h2 : applyOp s1 op = .error e) :
    runOps s script = (rs, s1, some e) := by
  rw [hsplit, runOps_append_ok _ _ _ _ _ h1]
  simp [runOps, h2]

theorem C8_witness :
    script =
      [Op.ping,
       Op.hsetMapping "help:user:demo"
         [("name", "Ali Demo"), ("email", "demo@example.com")],
       Op.zaddOne "help:queue:priority" "ticket:demo" 10] ++
      Op.rpushOne "help:ticket:demo:log" "Ticket created by Ali Demo" ::
      [Op.hgetallOp "help:user:demo",
       Op.zrevrangeOp "help:queue:priority",
       Op.lrangeOp "help:ticket:demo:log",
       Op.hsetField "help:user:demo" "name" "Ali Updated",
       Op.rpushOne "help:ticket:demo:log" "Name updated to Ali Updated",
       Op.hgetOp "help:user:demo" "name",
       Op.delOp ["help:user:demo", "help:queue:priority",
                 "help:ticket:demo:log"]] ∧
    runOps [("help:ticket:demo:log", RVal.hash [])]
      [Op.ping,
       Op.hsetMapping "help:user:demo"
         [("name", "Ali Demo"), ("email", "demo@example.com")],
       Op.zaddOne "help:queue:priority" "ticket:demo" 10] =
      ([RRes.bool true, RRes.done, RRes.done],
       [("help:ticket:demo:log", RVal.hash []),
        ("help:user:demo",
         RVal.hash [("name", "Ali Demo"), ("email", "demo@example.com")]),
        ("help:queue:priority", RVal.zset [("ticket:demo", 10)])],
       none) ∧
    applyOp [("help:ticket:demo:log", RVal.hash []),
        ("help:user:demo",
         RVal.hash [("name", "Ali Demo"), ("email", "demo@example.com")]),
        ("help:queue:priority", RVal.zset [("ticket:demo", 10)])]
      (Op.rpushOne "help:ticket:demo:log" "Ticket created by Ali Demo") =
      .error "WRONGTYPE" ∧
    runOps [("help:ticket:demo:log", RVal.hash [])] script =
      ([RRes.bool true, RRes.done, RRes.done],
       [("help:ticket:demo:log", RVal.hash []),
        ("help:user:demo",
         RVal.hash [("name", "Ali Demo"), ("email", "demo@example.com")]),
        ("help:queue:priority", RVal.zset [("ticket:demo", 10)])],
       some "WRONGTYPE") :=
  ⟨by decide, by decide, by decide,
   C8_first_error_halts_run
     [("help:ticket:demo:log", RVal.hash [])]
     [("help:ticket:demo:log", RVal.hash []),
      ("help:user:demo",
       RVal.hash [("name", "Ali Demo"), ("email", "demo@example.com")]),
      ("help:queue:priority", RVal.zset [("ticket:demo", 10)])]
     [Op.ping,
      Op.hsetMapping "help:user:demo"
        [("name", "Ali Demo"), ("email", "demo@example.com")],
      Op.zaddOne "help:queue:priority" "ticket:demo" 10]
     [Op.hgetallOp "help:user:demo",
      Op.zrevrangeOp "help:queue:priority",
      Op.lrangeOp "help:ticket:demo:log",
      Op.hsetField "help:user:demo" "name" "Ali Updated",
      Op.rpushOne "help:ticket:demo:log" "Name updated to Ali Updated",
      Op.hgetOp "help:user:demo" "name",
      Op.delOp ["help:user:demo", "help:queue:priority",
                "help:ticket:demo:log"]]
     (Op.rpushOne "help:ticket:demo:log" "Ticket created by Ali Demo")
     [RRes.bool true, RRes.done, RRes.done]
     "WRONGTYPE"
     (by decide) (by decide) (by decide)⟩

/-- C9: in the script the full-log LRANGE (position 6 of the command
sequence) comes before the second RPUSH (position 8), so in a run whose
demo keys start absent the step-6 log read returns exactly the
one-element sequence `["Ticket created by Ali Demo"]`. -/
theorem C9_log_read_before_second_append (s : Store)
    (hu : lookupStore s "help:user:demo" = none)
    (hq : lookupStore s "help:queue:priority" = none)
    (hl : lookupStore s "help:ticket:demo:log" = none) :
    script[6]? = some (Op.lrangeOp "help:ticket:demo:log") ∧
    script[8]? = some
      (Op.rpushOne "help:ticket:demo:log" "Name updated to Ali Updated") ∧
    (runOps s script).1[6]? =
      some (RRes.items ["Ticket created by Ali Demo"]) := by
  refine ⟨by decide, by decide, ?_⟩
  rw [runScript_spec s hu hq hl]
  rfl

theorem C9_witness :
    lookupStore ([] : Store) "help:user:demo" = none ∧
    lookupStore ([] : Store) "help:queue:priority" = none ∧
    lookupStore ([] : Store) "help:ticket:demo:log" = none ∧
    (script[6]? = some (Op.lrangeOp "help:ticket:demo:log") ∧
     script[8]? = some
       (Op.rpushOne "help:ticket:demo:log" "Name updated to Ali Updated") ∧
     (runOps ([] : Store) script).1[6]? =
       some (RRes.items ["Ticket created by Ali Demo"])) :=
  ⟨rfl, rfl, rfl, C9_log_read_before_second_append [] rfl rfl rfl⟩

/-- C10: the step-3 HSET updates field by field rather than replacing the
whole value: on a store where `help:user:demo` already holds a hash,
every field other than `name` and `email` reads exactly as before the
write, while `name` and `email` take the written values — so a prior
extra field survives and the full-mapping read can exceed two fields. -/
theorem C10_hset_preserves_extra_fields (s s' : Store)
    (fs : List (String × String))
    (h : lookupStore s "help:user:demo" = some (.hash fs))
    (h2 : hset s "help:user:demo"
        [("name", "Ali Demo"), ("email", "demo@example.com")] = .ok s') :
    (∀ f, f ≠ "name" → f ≠ "email" →
       hget s' "help:user:demo" f = hget s "help:user:demo" f) ∧
    hget s' "help:user:demo" "name" = .ok (some "Ali Demo") ∧
    hget s' "help:user:demo" "email" = .ok (some "demo@example.com") := by
  simp only [hset, h, Except.ok.injEq] at h2
  subst h2
  refine ⟨?_, ?_, ?_⟩
  · intro f hf1 hf2
    simp only [hget, lookup_set_self, h, applyFields,
               List.foldl_cons, List.foldl_nil]
    rw [lookupField_upsert_ne _ _ hf2.symm, lookupField_upsert_ne _ _ hf1.symm]
  · simp [hget, lookup_set_self, applyFields,
          lookupField_upsert_self, lookupField_upsert_ne]
  · simp [hget, lookup_set_self, applyFields, lookupField_upsert_self]

theorem C10_witness :
    lookupStore [("help:user:demo", RVal.hash [("role", "admin")])]
        "help:user:demo" = some (.hash [("role", "admin")]) ∧
    hset [("help:user:demo", RVal.hash [("role", "admin")])]
        "help:user:demo"
        [("name", "Ali Demo"), ("email", "demo@example.com")] =
      .ok [("help:user:demo",
        RVal.hash [("role", "admin"), ("name", "Ali Demo"),
                   ("email", "demo@example.com")])] ∧
    hget [("help:user:demo",
        RVal.hash [("role", "admin"), ("name", "Ali Demo"),
                   ("email", "demo@example.com")])]
        "help:user:demo" "role" =
      hget [("help:user:demo", RVal.hash [("role", "admin")])]
        "help:user:demo" "role" ∧
    hget [("help:user:demo", RVal.hash [("role", "admin")])]
        "help:user:demo" "role" = .ok (some "admin") ∧
    hgetall [("help:user:demo",
        RVal.hash [("role", "admin"), ("name", "Ali Demo"),
                   ("email", "demo@example.com")])]
        "help:user:demo" =
      .ok [("role", "admin"), ("name", "Ali Demo"),
           ("email", "demo@example.com")] :=
  ⟨by decide, by decide,
   (C10_hset_preserves_extra_fields
     [("help:user:demo", RVal.hash [("role", "admin")])]
     [("help:user:demo",
       RVal.hash [("role", "admin"), ("name", "Ali Demo"),
                  ("email", "demo@example.com")])]
     [("role", "admin")]
     (by decide) (by decide)).1 "role" (by decide) (by decide),
   by decide, by decide⟩
